import Mathlib

/-!
Verification of the `rubberband-rs` live-shifter facade (`src/lib.rs`).

The underlying Rubber Band C++ engine is an external, opaque block processor
(reached through the FFI declarations in `rubberband-sys`).  We embed the Rust
wrapper faithfully and keep the engine abstract: its pitch-scale parameter and
its internal history/buffers are explicit state components, and its `shift` /
`get_start_delay` behaviours are universally quantified function parameters.
The staged pitch scale is an `f64` cell that is only ever stored and loaded by
the wrapper, so it is modelled polymorphically (`α`); the symbolic type `F64V`
instantiates it with finite rationals plus NaN and the two infinities.  The
semitone/cent conveniences, which do real arithmetic, are modelled over `ℝ`.
-/

namespace Rubberband

/-- Window size options (`LiveShifterWindow` in `src/lib.rs`). -/
inductive LiveShifterWindow
  | Short
  | Medium
deriving DecidableEq, Repr

/-- Formant preservation options (`LiveShifterFormant` in `src/lib.rs`). -/
inductive LiveShifterFormant
  | Shifted
  | Preserved
deriving DecidableEq, Repr

/-- Channel processing mode (`LiveShifterChannelMode` in `src/lib.rs`). -/
inductive LiveShifterChannelMode
  | Apart
  | Together
deriving DecidableEq, Repr

/-- Error type (`RubberBandError` in `src/lib.rs`). -/
inductive RubberBandError
  | UnsupportedSampleRate (rate : Nat)
  | UnsupportedChannelCount (count : Nat)
  | InconsistentChannelCount (expected actual : Nat)
  | InconsistentBlockSize (channel expected actual : Nat)
  | OperationInProgress
deriving DecidableEq, Repr

/-- Symbolic stand-in for `f64` values as stored in the staged pitch-scale
cell: the wrapper never computes with the stored value, it only stores and
loads it, so finite doubles are represented by rationals and the special
values are explicit. -/
inductive F64V
  | finite (q : ℚ)
  | nan
  | inf
  | negInf
deriving DecidableEq, Repr

/-- Rust `LiveShifterBuilder` (`src/lib.rs`): plain configuration record. -/
structure LiveShifterBuilder where
  sample_rate : Nat
  channels : Nat
  window : LiveShifterWindow
  formant : LiveShifterFormant
  channel_mode : LiveShifterChannelMode
  debug_level : Int
deriving DecidableEq, Repr

/-- Rust `LiveShifterBuilder::new` (`src/lib.rs` lines 191-206): rejects
`sample_rate == 0` then `channels == 0`, otherwise returns the builder with
the default options.  No engine state is involved; the engine is only created
by `build`. -/
def LiveShifterBuilder.new (sample_rate channels : Nat) :
    Except RubberBandError LiveShifterBuilder :=
  if sample_rate = 0 then
    Except.error (RubberBandError.UnsupportedSampleRate sample_rate)
  else if channels = 0 then
    Except.error (RubberBandError.UnsupportedChannelCount channels)
  else
    Except.ok
      { sample_rate := sample_rate
        channels := channels
        window := LiveShifterWindow.Short
        formant := LiveShifterFormant.Shifted
        channel_mode := LiveShifterChannelMode.Apart
        debug_level := 0 }

/-- State of a `LiveShifter` (`src/lib.rs`), with the opaque engine handle
expanded into its observable state: `enginePitchScale` is the engine's native
pitch-scale parameter (the one written by `rubberband_live_set_pitch_scale`),
`engineHistory` its internal history/buffers, `engineChannelCount` and
`engineBlockSize` are the constants reported by `rubberband_live_get_channel_count`
and `rubberband_live_get_block_size`.  `guardHeld` models the wrapper's
`Mutex` being held by some other in-flight guarded call; `pitch_scale` and
`pitch_dirty` are the `AtomicF64` staged cell and its `AtomicBool` dirty flag;
`sample_rate` is the cached immutable field. -/
structure LiveShifter (α : Type) where
  enginePitchScale : α
  engineHistory : List Int
  engineChannelCount : Nat
  engineBlockSize : Nat
  guardHeld : Bool
  pitch_scale : α
  pitch_dirty : Bool
  sample_rate : Nat
deriving DecidableEq, Repr

/-- Rust `LiveShifterBuilder::build` (`src/lib.rs` lines 268-300): creates the
engine (fresh history, engine pitch scale 1.0) and the wrapper state with
staged pitch scale 1.0 and a clear dirty flag.  The block size is determined
by the engine, so it is a parameter here. -/
def LiveShifterBuilder.build (b : LiveShifterBuilder) (engineBlockSize : Nat) :
    LiveShifter F64V :=
  { enginePitchScale := F64V.finite 1
    engineHistory := []
    engineChannelCount := b.channels
    engineBlockSize := engineBlockSize
    guardHeld := false
    pitch_scale := F64V.finite 1
    pitch_dirty := false
    sample_rate := b.sample_rate }

/-- Rust `LiveShifter::set_pitch_scale` (`src/lib.rs` lines 448-451): stores the
value into the staged cell and sets the dirty flag; nothing else. -/
def LiveShifter.set_pitch_scale {α : Type} (s : LiveShifter α) (scale : α) :
    LiveShifter α :=
  { s with pitch_scale := scale, pitch_dirty := true }

/-- The staged pitch-scale flush as it appears inside `process_into`
(lines 830-833) and `start_delay` (lines 688-691): if the dirty flag is set,
push the staged value into the engine's native setter and clear the flag;
otherwise do nothing. -/
def LiveShifter.flushPitch {α : Type} (s : LiveShifter α) : LiveShifter α :=
  if s.pitch_dirty then
    { s with enginePitchScale := s.pitch_scale, pitch_dirty := false }
  else s

/-- The per-channel block-size loop of `process_into` (`src/lib.rs`
lines 802-817): for each channel index in order, first the input channel's
length is compared with the block size, then the output channel's.  The two
lists are the per-channel lengths of the input and output buffers; when this
is reached both have length `channel_count`. -/
def checkBlockSizes (block_size : Nat) : Nat → List Nat → List Nat →
    Option RubberBandError
  | _, [], _ => none
  | _, _ :: _, [] => none
  | ch, i :: is, o :: os =>
    if i ≠ block_size then
      some (RubberBandError.InconsistentBlockSize ch block_size i)
    else if o ≠ block_size then
      some (RubberBandError.InconsistentBlockSize ch block_size o)
    else
      checkBlockSizes block_size (ch + 1) is os

/-- The buffer-shape validation sequence of `process_into` (`src/lib.rs`
lines 787-817), as a pure function of the channel count, block size and the
per-channel buffer lengths: input channel count, then output channel count,
then the per-channel loop `checkBlockSizes`. -/
def validateShapes (channel_count block_size : Nat)
    (inputLens outputLens : List Nat) : Option RubberBandError :=
  if inputLens.length ≠ channel_count then
    some (RubberBandError.InconsistentChannelCount channel_count inputLens.length)
  else if outputLens.length ≠ channel_count then
    some (RubberBandError.InconsistentChannelCount channel_count outputLens.length)
  else
    checkBlockSizes block_size 0 inputLens outputLens

/-- The shape validation in the order claimed by the specification: input
channel count, output channel count, then ALL input channels' block sizes,
then ALL output channels' block sizes (spec §4.4 steps (3) and (4) as two
separate passes). -/
def checkBlockSizesOneSide (block_size : Nat) : Nat → List Nat →
    Option RubberBandError
  | _, [] => none
  | ch, l :: ls =>
    if l ≠ block_size then
      some (RubberBandError.InconsistentBlockSize ch block_size l)
    else
      checkBlockSizesOneSide block_size (ch + 1) ls

/-- Shape validation following the spec's claimed check order (inputs pass
fully before any output channel is examined). -/
def validateShapesClaimOrder (channel_count block_size : Nat)
    (inputLens outputLens : List Nat) : Option RubberBandError :=
  if inputLens.length ≠ channel_count then
    some (RubberBandError.InconsistentChannelCount channel_count inputLens.length)
  else if outputLens.length ≠ channel_count then
    some (RubberBandError.InconsistentChannelCount channel_count outputLens.length)
  else
    match checkBlockSizesOneSide block_size 0 inputLens with
    | some e => some e
    | none => checkBlockSizesOneSide block_size 0 outputLens

/-- Rust `LiveShifter::process_into` (`src/lib.rs` lines 780-842).  `shift` is the
opaque engine `rubberband_live_shift`: from the input blocks, the engine's
current pitch-scale parameter and its history it produces the new history and
the output blocks.  The wrapper: try-acquire the guard (fail fast with
`OperationInProgress`), validate shapes (returning the first error, guard
released by RAII), flush the staged pitch scale, invoke `shift`, release the
guard.  The returned triple is (result, state after the call, contents of the
caller's output buffers after the call). -/
def process_into {α β : Type}
    (shift : List (List β) → α → List Int → List Int × List (List β))
    (s : LiveShifter α) (input output : List (List β)) :
    Except RubberBandError Unit × LiveShifter α × List (List β) :=
  if s.guardHeld then
    (Except.error RubberBandError.OperationInProgress, s, output)
  else
    match validateShapes s.engineChannelCount s.engineBlockSize
        (input.map List.length) (output.map List.length) with
    | some e => (Except.error e, s, output)
    | none =>
      let s1 := s.flushPitch
      let r := shift input s1.enginePitchScale s1.engineHistory
      (Except.ok (), { s1 with engineHistory := r.1 }, r.2)

/-- Rust `LiveShifter::process` (`src/lib.rs` lines 748-756): allocates output
buffers shaped like the input and delegates to `process_into`.  The Rust code
evaluates `input[0].len()` before anything else, which panics when `input` is
empty; a panic is modelled as `none`. -/
def process {α β : Type}
    (shift : List (List β) → α → List Int → List Int × List (List β))
    (zeroSample : β) (s : LiveShifter α) (input : List (List β)) :
    Option (Except RubberBandError (List (List β)) × LiveShifter α) :=
  match input with
  | [] => none
  | ch0 :: _ =>
    let output := List.replicate input.length (List.replicate ch0.length zeroSample)
    match process_into shift s input output with
    | (Except.error e, s1, _) => some (Except.error e, s1)
    | (Except.ok _, s1, out) => some (Except.ok out, s1)

/-- Rust `LiveShifter::start_delay` (`src/lib.rs` lines 685-694): blocking lock,
flush the staged pitch scale if dirty, query the engine.  `delayOf` is the
opaque engine `rubberband_live_get_start_delay` as a function of the engine's
pitch-scale parameter and history. -/
def start_delay {α : Type} (delayOf : α → List Int → Nat) (s : LiveShifter α) :
    Nat × LiveShifter α :=
  let s1 := s.flushPitch
  (delayOf s1.enginePitchScale s1.engineHistory, s1)

/-- Rust `LiveShifter::reset` (`src/lib.rs` lines 852-857): blocking lock, then the
engine's `rubberband_live_reset`.  The engine's documented contract is that
reset clears the internal history/buffers and preserves every parameter
setting; the wrapper touches nothing else (in particular not the staged
pitch-scale cell or its dirty flag). -/
def LiveShifter.reset {α : Type} (s : LiveShifter α) : LiveShifter α :=
  { s with engineHistory := [] }

/-- Rust `LiveShifter::set_pitch_semitone` (`src/lib.rs` lines 506-509), over exact
reals: `scale = 2^(semitones/12)`, delegated to `set_pitch_scale`. -/
noncomputable def set_pitch_semitone (semitones : ℝ) (s : LiveShifter ℝ) :
    LiveShifter ℝ :=
  s.set_pitch_scale ((2 : ℝ) ^ (semitones / 12))

/-- Rust `LiveShifter::pitch_semitone` (`src/lib.rs` lines 534-537):
`12 * log2(staged scale)`. -/
noncomputable def pitch_semitone (s : LiveShifter ℝ) : ℝ :=
  12 * Real.logb 2 s.pitch_scale

/-- Rust `LiveShifter::set_pitch_cent` (`src/lib.rs` lines 565-569):
`scale = 2^(cents/1200)`, delegated to `set_pitch_scale`. -/
noncomputable def set_pitch_cent (cents : ℝ) (s : LiveShifter ℝ) :
    LiveShifter ℝ :=
  s.set_pitch_scale ((2 : ℝ) ^ (cents / 1200))

/-- Rust `LiveShifter::pitch_cent` (`src/lib.rs` lines 591-594):
`1200 * log2(staged scale)`. -/
noncomputable def pitch_cent (s : LiveShifter ℝ) : ℝ :=
  1200 * Real.logb 2 s.pitch_scale

/-- A concrete engine behaviour used to instantiate the opaque `shift`
parameter in closed evaluations: history unchanged, output echoes the input. -/
def idShift : List (List Int) → F64V → List Int → List Int × List (List Int) :=
  fun input _ hist => (hist, input)

/-- A freshly built mono shifter (44100 Hz, 1 channel, engine block size 512). -/
def testShifter1 : LiveShifter F64V :=
  LiveShifterBuilder.build
    { sample_rate := 44100
      channels := 1
      window := LiveShifterWindow.Short
      formant := LiveShifterFormant.Shifted
      channel_mode := LiveShifterChannelMode.Apart
      debug_level := 0 } 512

/-- A stereo shifter with engine block size 1, guard currently free. -/
def testShifter2 : LiveShifter F64V :=
  LiveShifterBuilder.build
    { sample_rate := 48000
      channels := 2
      window := LiveShifterWindow.Short
      formant := LiveShifterFormant.Shifted
      channel_mode := LiveShifterChannelMode.Apart
      debug_level := 0 } 1

/-- State `testShifter1` with the guard held by another in-flight guarded call. -/
def heldShifter : LiveShifter F64V :=
  { testShifter1 with guardHeld := true }

/-- The shape validation can only produce the two inconsistency errors, never
`OperationInProgress`. -/
lemma checkBlockSizes_ne_opInProgress (bs : Nat) :
    ∀ (c : Nat) (ins outs : List Nat),
      checkBlockSizes bs c ins outs ≠ some RubberBandError.OperationInProgress := by
  intro c ins
  induction ins generalizing c with
  | nil => intro outs; cases outs <;> simp [checkBlockSizes]
  | cons i is ih =>
    intro outs
    cases outs with
    | nil => simp [checkBlockSizes]
    | cons o os =>
      simp only [checkBlockSizes]
      split
      · simp
      · split
        · simp
        · exact ih (c + 1) os

lemma validateShapes_ne_opInProgress (cc bs : Nat) (ins outs : List Nat) :
    validateShapes cc bs ins outs ≠ some RubberBandError.OperationInProgress := by
  unfold validateShapes
  split
  · simp
  · split
    · simp
    · exact checkBlockSizes_ne_opInProgress bs 0 ins outs

/-- C4: `LiveShifterBuilder::new(sample_rate, channels)` fails with
`UnsupportedSampleRate` iff `sample_rate == 0`, fails with
`UnsupportedChannelCount` iff `sample_rate > 0` and `channels == 0`, and
otherwise succeeds with the defaults window=Short, formant=Shifted,
channelMode=Apart, debugLevel=0.  `new` involves no engine state at all (the
engine is created only by `build`). -/
theorem builder_new_spec (sample_rate channels : Nat) :
    (LiveShifterBuilder.new sample_rate channels
        = Except.error (RubberBandError.UnsupportedSampleRate sample_rate)
      ↔ sample_rate = 0) ∧
    (LiveShifterBuilder.new sample_rate channels
        = Except.error (RubberBandError.UnsupportedChannelCount channels)
      ↔ sample_rate ≠ 0 ∧ channels = 0) ∧
    (sample_rate ≠ 0 → channels ≠ 0 →
      LiveShifterBuilder.new sample_rate channels
        = Except.ok
            { sample_rate := sample_rate
              channels := channels
              window := LiveShifterWindow.Short
              formant := LiveShifterFormant.Shifted
              channel_mode := LiveShifterChannelMode.Apart
              debug_level := 0 }) := by
  by_cases hs : sample_rate = 0 <;> by_cases hc : channels = 0 <;>
    simp [LiveShifterBuilder.new, hs, hc]

/-- Witness for C4 at the concrete input (44100, 2). -/
theorem builder_new_spec_witness :
    LiveShifterBuilder.new 44100 2
      = Except.ok
          { sample_rate := 44100
            channels := 2
            window := LiveShifterWindow.Short
            formant := LiveShifterFormant.Shifted
            channel_mode := LiveShifterChannelMode.Apart
            debug_level := 0 } :=
  (builder_new_spec 44100 2).2.2 (by decide) (by decide)

/-- C5: for every finite positive `x`, `set_pitch_scale(x); pitch_scale()`
returns exactly `x` with no processing call in between; `pitch_scale()` reads
only the staged cell (it is unaffected by the engine's pitch parameter and
history); a freshly built instance has staged pitch scale 1.0 and
dirty=false. -/
theorem set_get_pitch_scale (q : ℚ) (hq : 0 < q) (s : LiveShifter F64V)
    (b : LiveShifterBuilder) (bs : Nat) :
    (s.set_pitch_scale (F64V.finite q)).pitch_scale = F64V.finite q ∧
    (∀ (p : F64V) (hist : List Int),
      ({ s with enginePitchScale := p, engineHistory := hist } :
          LiveShifter F64V).pitch_scale = s.pitch_scale) ∧
    (b.build bs).pitch_scale = F64V.finite 1 ∧
    (b.build bs).pitch_dirty = false := by
  refine ⟨rfl, fun p hist => rfl, rfl, rfl⟩

/-- Witness for C5 at x = 2 on a freshly built shifter. -/
theorem set_get_pitch_scale_witness :
    (0 : ℚ) < 2 ∧
    (testShifter1.set_pitch_scale (F64V.finite 2)).pitch_scale = F64V.finite 2 :=
  ⟨by norm_num,
   (set_get_pitch_scale 2 (by norm_num) testShifter1
      { sample_rate := 44100
        channels := 1
        window := LiveShifterWindow.Short
        formant := LiveShifterFormant.Shifted
        channel_mode := LiveShifterChannelMode.Apart
        debug_level := 0 } 512).1⟩

/-- C10: `set_pitch_scale` performs no validation at all: for every stored
value `x` — `F64V` includes 0, negative rationals, NaN and both infinities —
the setter succeeds (it is total), `pitch_scale()` then returns exactly `x`,
and the next guarded flush pushes `x` unmodified into the engine's native
pitch-scale setter and clears the dirty flag. -/
theorem set_pitch_scale_no_validation (x : F64V) (s : LiveShifter F64V) :
    (s.set_pitch_scale x).pitch_scale = x ∧
    (s.set_pitch_scale x).pitch_dirty = true ∧
    (s.set_pitch_scale x).flushPitch.enginePitchScale = x ∧
    (s.set_pitch_scale x).flushPitch.pitch_dirty = false := by
  refine ⟨rfl, rfl, ?_, ?_⟩ <;>
    simp [LiveShifter.set_pitch_scale, LiveShifter.flushPitch]

/-- C2: the claim that `process` and `process_into` never panic fails for
`process`: on an empty input channel sequence the Rust code evaluates
`input[0].len()` before any validation and panics with an index-out-of-bounds
(modelled as `none`), even though `process_into` itself — and `process`'s own
documentation — would report `InconsistentChannelCount{expected, actual: 0}`
as an error value, as the second conjunct shows. -/
theorem process_empty_input_panics :
    process idShift 0 testShifter1 [] = none ∧
    (process_into idShift testShifter1 ([] : List (List Int)) []).1
      = Except.error (RubberBandError.InconsistentChannelCount 1 0) := by
  constructor
  · rfl
  · rfl

/-- C3: when the guard is already held by another in-flight guarded call,
`process_into` fails immediately with `OperationInProgress` and performs zero
engine side effects — the state (engine pitch parameter, engine history,
staged cell, dirty flag, guard) and the caller's output buffers are returned
unchanged; when the guard is free the call never returns
`OperationInProgress`. -/
theorem process_into_guard {α β : Type}
    (shift : List (List β) → α → List Int → List Int × List (List β))
    (s : LiveShifter α) (input output : List (List β)) :
    (s.guardHeld = true →
      process_into shift s input output
        = (Except.error RubberBandError.OperationInProgress, s, output)) ∧
    (s.guardHeld = false →
      (process_into shift s input output).1
        ≠ Except.error RubberBandError.OperationInProgress) := by
  constructor
  · intro h
    simp [process_into, h]
  · intro h
    unfold process_into
    rw [h]
    simp only [Bool.false_eq_true, if_false]
    split
    · rename_i e heq
      intro hcontra
      simp only [Except.error.injEq] at hcontra
      subst hcontra
      exact validateShapes_ne_opInProgress _ _ _ _ heq
    · simp

/-- Witness for C3: the held guard fails fast with no effect at a concrete
state, and the free guard never reports `OperationInProgress`. -/
theorem process_into_guard_witness :
    process_into idShift heldShifter ([] : List (List Int)) []
      = (Except.error RubberBandError.OperationInProgress, heldShifter, []) ∧
    (process_into idShift testShifter1 ([] : List (List Int)) []).1
      ≠ Except.error RubberBandError.OperationInProgress :=
  ⟨(process_into_guard idShift heldShifter [] []).1 rfl,
   (process_into_guard idShift testShifter1 [] []).2 rfl⟩

/-- C6: the flush performed at the start of a guarded operation —
`process_into` after successful validation, and `start_delay` before querying
the engine — pushes the staged pitch scale into the engine's native setter and
clears the dirty flag exactly when the flag was set, and does nothing
otherwise; `set_pitch_scale` itself only writes the staged cell and the dirty
flag and never touches the engine. -/
theorem flush_spec {α β : Type}
    (shift : List (List β) → α → List Int → List Int × List (List β))
    (delayOf : α → List Int → Nat)
    (s : LiveShifter α) (x : α) (input output : List (List β)) :
    (s.pitch_dirty = true →
      s.flushPitch
        = { s with enginePitchScale := s.pitch_scale, pitch_dirty := false }) ∧
    (s.pitch_dirty = false → s.flushPitch = s) ∧
    ((start_delay delayOf s).2 = s.flushPitch) ∧
    (s.guardHeld = false →
      validateShapes s.engineChannelCount s.engineBlockSize
          (input.map List.length) (output.map List.length) = none →
      (process_into shift s input output).2.1
        = { s.flushPitch with
            engineHistory :=
              (shift input s.flushPitch.enginePitchScale
                s.flushPitch.engineHistory).1 }) ∧
    (s.set_pitch_scale x = { s with pitch_scale := x, pitch_dirty := true }) := by
  refine ⟨?_, ?_, rfl, ?_, rfl⟩
  · intro h
    simp [LiveShifter.flushPitch, h]
  · intro h
    simp [LiveShifter.flushPitch, h]
  · intro hg hv
    unfold process_into
    rw [hg]
    simp only [Bool.false_eq_true, if_false, hv]

/-- Witness for C6: a dirty shifter is flushed into the engine by
`start_delay`, and a successful `process_into` flushes before shifting. -/
theorem flush_spec_witness :
    (testShifter1.set_pitch_scale (F64V.finite 2)).flushPitch
      = { testShifter1 with
          enginePitchScale := F64V.finite 2
          pitch_scale := F64V.finite 2
          pitch_dirty := false } ∧
    (process_into idShift (testShifter2.set_pitch_scale F64V.nan)
        [[5], [6]] [[7], [8]]).2.1
      = { testShifter2 with
          enginePitchScale := F64V.nan
          pitch_scale := F64V.nan
          pitch_dirty := false } := by
  constructor
  · have h := (flush_spec idShift (fun _ _ => 0)
      (testShifter1.set_pitch_scale (F64V.finite 2)) (F64V.finite 2)
      ([] : List (List Int)) []).1 rfl
    rw [h]
    rfl
  · have h := (flush_spec idShift (fun _ _ => 0)
      (testShifter2.set_pitch_scale F64V.nan) F64V.nan
      [[(5 : Int)], [6]] [[7], [8]]).2.2.2.1 rfl (by decide)
    rw [h]
    rfl

/-- C7: if buffer-shape validation fails, `process_into` returns exactly the
validation error, releases the guard (the returned state is the original one,
whose guard is free), performs no flush and no shift, and leaves every output
buffer element unchanged; if validation passes, the outputs are replaced by
the engine's `shift` result, computed only after the flush. -/
theorem process_into_validation {α β : Type}
    (shift : List (List β) → α → List Int → List Int × List (List β))
    (s : LiveShifter α) (input output : List (List β)) (e : RubberBandError) :
    (s.guardHeld = false →
      validateShapes s.engineChannelCount s.engineBlockSize
          (input.map List.length) (output.map List.length) = some e →
      process_into shift s input output = (Except.error e, s, output)) ∧
    (s.guardHeld = false →
      validateShapes s.engineChannelCount s.engineBlockSize
          (input.map List.length) (output.map List.length) = none →
      process_into shift s input output
        = (Except.ok (),
           { s.flushPitch with
             engineHistory :=
               (shift input s.flushPitch.enginePitchScale
                 s.flushPitch.engineHistory).1 },
           (shift input s.flushPitch.enginePitchScale
             s.flushPitch.engineHistory).2)) := by
  constructor
  · intro hg hv
    unfold process_into
    rw [hg]
    simp only [Bool.false_eq_true, if_false, hv]
  · intro hg hv
    unfold process_into
    rw [hg]
    simp only [Bool.false_eq_true, if_false, hv]

/-- Witness for C7: a failing validation (wrong input channel count) returns
the error and changes nothing, and a passing one overwrites the outputs. -/
theorem process_into_validation_witness :
    process_into idShift testShifter1 [] [[0]]
      = (Except.error (RubberBandError.InconsistentChannelCount 1 0),
         testShifter1, [[0]]) ∧
    (process_into idShift testShifter2 [[5], [6]] [[7], [8]]).2.2
      = [[(5 : Int)], [6]] := by
  constructor
  · exact (process_into_validation idShift testShifter1 [] [[0]]
      (RubberBandError.InconsistentChannelCount 1 0)).1 rfl (by decide)
  · rw [(process_into_validation idShift testShifter2 [[5], [6]] [[7], [8]]
      RubberBandError.OperationInProgress).2 rfl (by decide)]
    rfl

/-- C8: `reset` clears the engine's internal history/buffers but preserves all
parameter settings (in particular the engine's pitch-scale parameter), and it
leaves the staged pitch-scale cell and the dirty flag untouched, so a pending
value remains pending and is flushed into the engine by the next guarded
call (here: `start_delay`). -/
theorem reset_spec {α : Type} (delayOf : α → List Int → Nat)
    (s : LiveShifter α) :
    s.reset.engineHistory = [] ∧
    s.reset.enginePitchScale = s.enginePitchScale ∧
    s.reset.pitch_scale = s.pitch_scale ∧
    s.reset.pitch_dirty = s.pitch_dirty ∧
    s.reset.engineChannelCount = s.engineChannelCount ∧
    s.reset.engineBlockSize = s.engineBlockSize ∧
    s.reset.sample_rate = s.sample_rate ∧
    (s.pitch_dirty = true →
      (start_delay delayOf s.reset).2.enginePitchScale = s.pitch_scale ∧
      (start_delay delayOf s.reset).2.pitch_dirty = false) := by
  refine ⟨rfl, rfl, rfl, rfl, rfl, rfl, rfl, ?_⟩
  intro h
  constructor <;>
    simp [start_delay, LiveShifter.reset, LiveShifter.flushPitch, h]

/-- Witness for C8: a pending pitch scale survives `reset` and is flushed by
the following `start_delay`. -/
theorem reset_spec_witness :
    ((start_delay (fun _ _ => 0)
        (testShifter1.set_pitch_scale (F64V.finite 2)).reset).2.enginePitchScale
      = F64V.finite 2) ∧
    ((start_delay (fun _ _ => 0)
        (testShifter1.set_pitch_scale (F64V.finite 2)).reset).2.pitch_dirty
      = false) :=
  (reset_spec (fun _ _ => 0)
    (testShifter1.set_pitch_scale (F64V.finite 2))).2.2.2.2.2.2.2 rfl

/-- C9: `set_pitch_semitone(s)` stages `2^(s/12)` and `set_pitch_cent(c)`
stages `2^(c/1200)`, each by delegating to `set_pitch_scale`;
`pitch_semitone()` returns `12*log2(staged scale)` and `pitch_cent()`
`1200*log2(staged scale)`; hence the round trip
`set_pitch_semitone(s); pitch_semitone()` returns `s` — exactly in the
real-valued model, and in particular within the claimed 1e-6 tolerance —
and likewise for cents. -/
theorem pitch_semitone_roundtrip (sh : LiveShifter ℝ) (s c : ℝ) :
    set_pitch_semitone s sh = sh.set_pitch_scale ((2 : ℝ) ^ (s / 12)) ∧
    set_pitch_cent c sh = sh.set_pitch_scale ((2 : ℝ) ^ (c / 1200)) ∧
    pitch_semitone sh = 12 * Real.logb 2 sh.pitch_scale ∧
    pitch_cent sh = 1200 * Real.logb 2 sh.pitch_scale ∧
    pitch_semitone (set_pitch_semitone s sh) = s ∧
    pitch_cent (set_pitch_cent c sh) = c ∧
    |pitch_semitone (set_pitch_semitone s sh) - s| ≤ 1e-6 := by
  have hsem : pitch_semitone (set_pitch_semitone s sh) = s := by
    show 12 * Real.logb 2 ((2 : ℝ) ^ (s / 12)) = s
    rw [Real.logb_rpow (by norm_num) (by norm_num)]
    ring
  have hcent : pitch_cent (set_pitch_cent c sh) = c := by
    show 1200 * Real.logb 2 ((2 : ℝ) ^ (c / 1200)) = c
    rw [Real.logb_rpow (by norm_num) (by norm_num)]
    ring
  refine ⟨rfl, rfl, rfl, rfl, hsem, hcent, ?_⟩
  rw [hsem]
  simp
  norm_num

/-- The per-channel loop fails with `InconsistentBlockSize ch e a` exactly
when `ch` is the first channel (counting from the starting index `c`) at which
the interleaved input-then-output length check fails, `e` is the block size,
and `a` is the offending length — the input length if it is wrong, otherwise
the output length. -/
lemma checkBlockSizes_eq_some_iff (bs : Nat) :
    ∀ (ins outs : List Nat) (c ch e a : Nat), ins.length = outs.length →
      (checkBlockSizes bs c ins outs
          = some (RubberBandError.InconsistentBlockSize ch e a) ↔
        ∃ k, ch = c + k ∧ e = bs ∧ k < ins.length ∧
          (∀ j, j < k → ins.getD j 0 = bs ∧ outs.getD j 0 = bs) ∧
          ((ins.getD k 0 ≠ bs ∧ a = ins.getD k 0) ∨
           (ins.getD k 0 = bs ∧ outs.getD k 0 ≠ bs ∧ a = outs.getD k 0))) := by
  intro ins
  induction ins with
  | nil =>
    intro outs c ch e a hlen
    simp [checkBlockSizes]
  | cons i is ih =>
    intro outs c ch e a hlen
    cases outs with
    | nil => simp at hlen
    | cons o os =>
      have hlen' : is.length = os.length := by
        simpa using hlen
      by_cases hi : i = bs
      · by_cases ho : o = bs
        · have hstep : checkBlockSizes bs c (i :: is) (o :: os)
              = checkBlockSizes bs (c + 1) is os := by
            simp [checkBlockSizes, hi, ho]
          rw [hstep, ih os (c + 1) ch e a hlen']
          constructor
          · rintro ⟨k, hch, he, hk, hprev, hcur⟩
            refine ⟨k + 1, by omega, he, by simpa using hk, ?_, ?_⟩
            · intro j hj
              cases j with
              | zero => simp [hi, ho]
              | succ j' =>
                simpa using hprev j' (by omega)
            · simpa using hcur
          · rintro ⟨k, hch, he, hk, hprev, hcur⟩
            cases k with
            | zero =>
              simp only [List.getD_cons_zero] at hcur
              rcases hcur with ⟨hbad, _⟩ | ⟨_, hbad, _⟩
              · exact absurd hi hbad
              · exact absurd ho hbad
            | succ k' =>
              refine ⟨k', by omega, he, by simpa using hk, ?_, ?_⟩
              · intro j hj
                simpa using hprev (j + 1) (by omega)
              · simpa using hcur
        · have hstep : checkBlockSizes bs c (i :: is) (o :: os)
              = some (RubberBandError.InconsistentBlockSize c bs o) := by
            simp [checkBlockSizes, hi, ho]
          rw [hstep]
          constructor
          · intro hsome
            simp only [Option.some.injEq, RubberBandError.InconsistentBlockSize.injEq]
              at hsome
            refine ⟨0, by omega, by omega, by simp, by simp, Or.inr ?_⟩
            simp [hi, ho]
            omega
          · rintro ⟨k, hch, he, hk, hprev, hcur⟩
            cases k with
            | zero =>
              simp only [List.getD_cons_zero] at hcur
              rcases hcur with ⟨hbad, _⟩ | ⟨_, _, ha⟩
              · exact absurd hi hbad
              · simp only [Option.some.injEq,
                  RubberBandError.InconsistentBlockSize.injEq]
                omega
            | succ k' =>
              have := (hprev 0 (by omega)).2
              simp only [List.getD_cons_zero] at this
              exact absurd this ho
      · have hstep : checkBlockSizes bs c (i :: is) (o :: os)
            = some (RubberBandError.InconsistentBlockSize c bs i) := by
          simp [checkBlockSizes, hi]
        rw [hstep]
        constructor
        · intro hsome
          simp only [Option.some.injEq, RubberBandError.InconsistentBlockSize.injEq]
            at hsome
          refine ⟨0, by omega, by omega, by simp, by simp, Or.inl ?_⟩
          simp [hi]
          omega
        · rintro ⟨k, hch, he, hk, hprev, hcur⟩
          cases k with
          | zero =>
            simp only [List.getD_cons_zero] at hcur
            rcases hcur with ⟨_, ha⟩ | ⟨hbad, _, _⟩
            · simp only [Option.some.injEq,
                RubberBandError.InconsistentBlockSize.injEq]
              omega
            · exact absurd hbad hi
          | succ k' =>
            have := (hprev 0 (by omega)).1
            simp only [List.getD_cons_zero] at this
            exact absurd this hi

/-- The per-channel loop succeeds exactly when every input and output channel
has the required block size. -/
lemma checkBlockSizes_eq_none_iff (bs : Nat) :
    ∀ (ins outs : List Nat) (c : Nat), ins.length = outs.length →
      (checkBlockSizes bs c ins outs = none ↔
        (∀ l ∈ ins, l = bs) ∧ (∀ l ∈ outs, l = bs)) := by
  intro ins
  induction ins with
  | nil =>
    intro outs c hlen
    have : outs = [] := by
      cases outs with
      | nil => rfl
      | cons o os => simp at hlen
    subst this
    simp [checkBlockSizes]
  | cons i is ih =>
    intro outs c hlen
    cases outs with
    | nil => simp at hlen
    | cons o os =>
      have hlen' : is.length = os.length := by simpa using hlen
      by_cases hi : i = bs
      · by_cases ho : o = bs
        · have hstep : checkBlockSizes bs c (i :: is) (o :: os)
              = checkBlockSizes bs (c + 1) is os := by
            simp [checkBlockSizes, hi, ho]
          rw [hstep, ih os (c + 1) hlen']
          simp [hi, ho]
        · have hstep : checkBlockSizes bs c (i :: is) (o :: os)
              = some (RubberBandError.InconsistentBlockSize c bs o) := by
            simp [checkBlockSizes, hi, ho]
          rw [hstep]
          simp [ho]
      · have hstep : checkBlockSizes bs c (i :: is) (o :: os)
            = some (RubberBandError.InconsistentBlockSize c bs i) := by
          simp [checkBlockSizes, hi]
        rw [hstep]
        simp [hi]

/-- C1 (counterexample): the claim's check order — all input channels' block
sizes before any output channel's — does not match the code, which checks
input then output block size per channel, in channel order.  With channel
count 2 and block size 1, input lengths [1, 0] and output lengths [0, 1], the
claimed order reports the first failing channel as 1 (input channel 1, length
0) while the code reports channel 0 (output channel 0, length 0); the full
`process_into` on buffers of those shapes returns the code's error. -/
theorem validation_order_counterexample :
    validateShapes 2 1 [1, 0] [0, 1]
      = some (RubberBandError.InconsistentBlockSize 0 1 0) ∧
    validateShapesClaimOrder 2 1 [1, 0] [0, 1]
      = some (RubberBandError.InconsistentBlockSize 1 1 0) ∧
    validateShapes 2 1 [1, 0] [0, 1]
      ≠ validateShapesClaimOrder 2 1 [1, 0] [0, 1] ∧
    (process_into idShift testShifter2 [[5], []] [[], [7]]).1
      = Except.error (RubberBandError.InconsistentBlockSize 0 1 0) := by
  refine ⟨by decide, by decide, by decide, rfl⟩

/-- C1 (amended): buffer-shape validation in `process_into` checks, in order,
(1) input channel-sequence length against the channel count, (2) output
channel-sequence length, then (3) for each channel index in order the input
channel's sample count and then the same channel's output sample count,
interleaved per channel; the first check to fail determines the returned
error, and an `InconsistentBlockSize` error identifies the first channel
failing under that interleaved order, carrying the offending length. -/
theorem validation_order_amended (cc bs : Nat) (ins outs : List Nat) :
    (ins.length ≠ cc →
      validateShapes cc bs ins outs
        = some (RubberBandError.InconsistentChannelCount cc ins.length)) ∧
    (ins.length = cc → outs.length ≠ cc →
      validateShapes cc bs ins outs
        = some (RubberBandError.InconsistentChannelCount cc outs.length)) ∧
    (ins.length = cc → outs.length = cc →
      ∀ ch e a,
        (validateShapes cc bs ins outs
            = some (RubberBandError.InconsistentBlockSize ch e a) ↔
          (e = bs ∧ ch < cc ∧
           (∀ j, j < ch → ins.getD j 0 = bs ∧ outs.getD j 0 = bs) ∧
           ((ins.getD ch 0 ≠ bs ∧ a = ins.getD ch 0) ∨
            (ins.getD ch 0 = bs ∧ outs.getD ch 0 ≠ bs ∧
             a = outs.getD ch 0))))) ∧
    (validateShapes cc bs ins outs = none ↔
      (ins.length = cc ∧ outs.length = cc ∧
       (∀ l ∈ ins, l = bs) ∧ (∀ l ∈ outs, l = bs))) := by
  refine ⟨?_, ?_, ?_, ?_⟩
  · intro h
    simp [validateShapes, h]
  · intro h1 h2
    simp [validateShapes, h1, h2]
  · intro h1 h2 ch e a
    have hlen : ins.length = outs.length := by omega
    have hv : validateShapes cc bs ins outs = checkBlockSizes bs 0 ins outs := by
      simp [validateShapes, h1, h2]
    rw [hv, checkBlockSizes_eq_some_iff bs ins outs 0 ch e a hlen]
    constructor
    · rintro ⟨k, hch, he, hk, hprev, hcur⟩
      have hk0 : k = ch := by omega
      subst hk0
      exact ⟨he, by omega, hprev, hcur⟩
    · rintro ⟨he, hch, hprev, hcur⟩
      exact ⟨ch, by omega, he, by omega, hprev, hcur⟩
  · by_cases h1 : ins.length = cc
    · by_cases h2 : outs.length = cc
      · have hlen : ins.length = outs.length := by omega
        have hv : validateShapes cc bs ins outs
            = checkBlockSizes bs 0 ins outs := by
          simp [validateShapes, h1, h2]
        rw [hv, checkBlockSizes_eq_none_iff bs ins outs 0 hlen]
        simp [h1, h2]
      · simp [validateShapes, h1, h2]
    · simp [validateShapes, h1]

/-- Witness for C1's amended theorem: on the counterexample shapes the
interleaved characterization pins the error to channel 0 with length 0. -/
theorem validation_order_amended_witness :
    validateShapes 2 1 [1, 0] [0, 1]
      = some (RubberBandError.InconsistentBlockSize 0 1 0) :=
  ((validation_order_amended 2 1 [1, 0] [0, 1]).2.2.1 rfl rfl 0 1 0).mpr
    (by refine ⟨rfl, by omega, ?_, Or.inr (by simp)⟩
        intro j hj
        omega)

end Rubberband
